import Mathlib

/-
Verification of the opcua `monitor` package (subscription notification-dispatch
engine).  The package sources contain two revisions of the same design:
`subscription.go` (newer: `itemLookup` keyed by server item id, sub-id mismatch
forwarded to the error handler) and `monitor.go` (older: `nodeLookup` keyed by
the node's string form, sub-id mismatch panics).  Both revisions are embedded
below; definitions are translated from the Go source.  Go maps are modelled as
association lists (insert replaces an existing key, erase deletes it, length is
the number of keys); `uint32` arithmetic is `Nat` with an explicit `% 2^32`;
the external transport RPCs are oracle inputs (`RpcOutcome`); a Go `panic` is
an explicit `Bool` in the result.
-/

namespace OpcuaMonitor

/-- Modulus of Go's `uint32`, used by the client-handle counter. -/
def u32 : Nat := 2 ^ 32

/-- Node identifiers are compared by their canonical string form
(`ua.NodeID.String()` in the source), so we model them as strings. -/
abbrev NodeID := String

abbrev StatusCode := Nat

/-- `ua.StatusOK`. -/
def StatusOK : StatusCode := 0

/-- `ua.AttributeIDValue`. -/
def attributeIDValue : Nat := 13

/-- `ua.MonitoringModeReporting`. -/
def monitoringModeReporting : Nat := 2

/-- Opaque decoded value payload (`*ua.DataValue`). -/
structure DataValue where
  val : Nat
deriving DecidableEq, Repr

/-- The error values produced by the package (each constructor corresponds to
one `errors.New` / `errors.Errorf` / status-code return in the source). -/
inductive MonError where
  | transport (msg : String)
  | serviceResult (sc : StatusCode)
  | lengthMismatch (which : String)
  | itemStatus (sc : StatusCode)
  | itemNotFound (id : Nat)
  | nodeNotFound (s : String)
  | handleNotFound (h : Nat)
  | slowConsumer
  | subIDMismatch (got expected : Nat)
  | unknownMessageType (tag : String)
deriving DecidableEq, Repr

/-! ### Go map model: association lists with replace-on-insert -/

def lookupA {κ α : Type} [DecidableEq κ] : List (κ × α) → κ → Option α
  | [], _ => none
  | (k, v) :: t, k' => if k = k' then some v else lookupA t k'

def insertA {κ α : Type} [DecidableEq κ] : List (κ × α) → κ → α → List (κ × α)
  | [], k, v => [(k, v)]
  | (k0, v0) :: t, k, v =>
      if k0 = k then (k, v) :: t else (k0, v0) :: insertA t k v

def eraseA {κ α : Type} [DecidableEq κ] : List (κ × α) → κ → List (κ × α)
  | [], _ => []
  | (k0, v0) :: t, k => if k0 = k then t else (k0, v0) :: eraseA t k

def keysA {κ α : Type} (l : List (κ × α)) : List κ := l.map Prod.fst

/-! ### Identity model (`Item`, `Request`, RPC request/response shapes) -/

/-- `monitor.Item`: server-assigned id, node, client handle. -/
structure Item where
  id : Nat
  nodeID : NodeID
  handle : Nat
deriving DecidableEq, Repr

/-- `ua.MonitoringParameters` (only the fields the package touches). -/
structure MonitoringParameters where
  clientHandle : Nat
  samplingInterval : Nat
  queueSize : Nat
deriving DecidableEq, Repr

/-- `monitor.Request`: the caller fills node/mode/params, the subscription
fills `handle` during `AddMonitorItems`. -/
structure Request where
  nodeID : NodeID
  monitoringMode : Nat
  monitoringParameters : Option MonitoringParameters
  handle : Nat := 0
deriving DecidableEq, Repr

/-- `ua.MonitoredItemCreateRequest` as built by
`opcua.NewMonitoredItemCreateRequestWithDefaults` plus the package's own
mutations (monitoring mode, requested parameters with the fresh handle). -/
structure MonitoredItemCreateRequest where
  nodeID : NodeID
  attributeID : Nat
  clientHandle : Nat
  monitoringMode : Nat
  requestedParameters : Option MonitoringParameters
deriving DecidableEq, Repr

/-- One per-item result of the `Monitor` RPC. -/
structure CreateResult where
  statusCode : StatusCode
  monitoredItemID : Nat
deriving DecidableEq, Repr

/-- Response of the `Monitor` RPC. -/
structure MonitorResponse where
  serviceResult : StatusCode
  results : List CreateResult
deriving DecidableEq, Repr

/-- Response of the `Unmonitor` RPC (per-item results are bare status codes). -/
structure UnmonitorResponse where
  serviceResult : StatusCode
  results : List StatusCode
deriving DecidableEq, Repr

structure ModifyResult where
  statusCode : StatusCode
deriving DecidableEq, Repr

/-- Response of the `ModifyMonitoredItems` RPC. -/
structure ModifyResponse where
  serviceResult : StatusCode
  results : List ModifyResult
deriving DecidableEq, Repr

/-- Response of the `SetMonitoringMode` RPC. -/
structure SetModeResponse where
  serviceResult : StatusCode
  results : List StatusCode
deriving DecidableEq, Repr

/-- Outcome of one transport RPC: either a transport-level Go error or a
decoded response.  The transport is an external collaborator, so each
state-transition function takes the outcome of its single RPC as an input. -/
inductive RpcOutcome (α : Type) where
  | rpcErr (e : MonError)
  | ok (r : α)
deriving DecidableEq, Repr

/-! ### Subscription state (`subscription.go` revision)

The registry's `nextClientHandle` counter lives on `NodeMonitor` in the
source and is shared by reference; we carry it inside the state record. -/

structure SubState where
  delivered : Nat
  dropped : Nat
  handles : List (Nat × NodeID)
  itemLookup : List (Nat × Item)
  subID : Nat
  closed : Bool
  nextClientHandle : Nat
deriving DecidableEq, Repr

/-- `Subscription.Subscribed`: number of currently subscribed nodes
(`len(s.handles)`). -/
def Subscribed (st : SubState) : Nat := st.handles.length

/-- First phase of `AddMonitorItems` (the loop before the RPC): allocate one
fresh handle per request via the registry's atomic counter, speculatively
insert it into `handles`, record it in the request, and build the
`MonitoredItemCreateRequest` batch. -/
def reserveHandles (st : SubState) (nodes : List Request) :
    SubState × List Request × List MonitoredItemCreateRequest :=
  match nodes with
  | [] => (st, [], [])
  | node :: rest =>
      let h := (st.nextClientHandle + 1) % u32
      let st1 := { st with nextClientHandle := h,
                           handles := insertA st.handles h node.nodeID }
      let req : MonitoredItemCreateRequest :=
        { nodeID := node.nodeID
          attributeID := attributeIDValue
          clientHandle := h
          monitoringMode := node.monitoringMode
          requestedParameters :=
            node.monitoringParameters.map (fun p => { p with clientHandle := h }) }
      let r := reserveHandles st1 rest
      (r.1, { node with handle := h } :: r.2.1, req :: r.2.2)

/-- Second phase of `AddMonitorItems` (the loop over `resp.Results`): abort on
the first non-OK per-item status, otherwise build the `Item`, commit it to
`itemLookup` and collect it.  Each row pairs a per-item result with the
request (carrying the reserved handle) and the wire request (carrying the
node). -/
def commitItems (st : SubState)
    (rows : List (CreateResult × Request × MonitoredItemCreateRequest))
    (acc : List Item) : SubState × Except MonError (List Item) :=
  match rows with
  | [] => (st, .ok acc)
  | (res, node, req) :: rest =>
      if res.statusCode ≠ StatusOK then (st, .error (.itemStatus res.statusCode))
      else
        let mn : Item := { id := res.monitoredItemID, handle := node.handle, nodeID := req.nodeID }
        commitItems { st with itemLookup := insertA st.itemLookup res.monitoredItemID mn }
          rest (acc ++ [mn])

/-- `Subscription.AddMonitorItems` (subscription.go): empty batches return
immediately; otherwise handles are reserved speculatively, the `Monitor` RPC
is issued, and the response is validated (service result, result count,
per-item status) before items are committed. -/
def AddMonitorItems (st : SubState) (nodes : List Request)
    (rpc : RpcOutcome MonitorResponse) : SubState × Except MonError (List Item) :=
  if nodes = [] then (st, .ok [])
  else
    let r := reserveHandles st nodes
    match rpc with
    | .rpcErr e => (r.1, .error e)
    | .ok resp =>
        if resp.serviceResult ≠ StatusOK then
          (r.1, .error (.serviceResult resp.serviceResult))
        else if resp.results.length ≠ r.2.2.length then
          (r.1, .error (.lengthMismatch "monitor items response length mismatch"))
        else
          commitItems r.1 (resp.results.zip (r.2.1.zip r.2.2)) []

/-- `Subscription.AddNodeIDs` (subscription.go): wraps each node in a
`Request` with `MonitoringModeReporting` and delegates to `AddMonitorItems`,
discarding the item list. -/
def AddNodeIDs (st : SubState) (nodes : List NodeID)
    (rpc : RpcOutcome MonitorResponse) : SubState × Except MonError Unit :=
  let requests := nodes.map (fun n =>
    ({ nodeID := n, monitoringMode := monitoringModeReporting,
       monitoringParameters := none, handle := 0 } : Request))
  let r := AddMonitorItems st requests rpc
  (r.1, r.2.map (fun _ => ()))

/-- Linear scan of `itemLookup` for the first item whose node matches
(`for _, item := range s.itemLookup` with `break` on the first hit; the Go
map iteration order is unspecified — we scan in list order, which agrees with
the map whenever at most one item matches the node). -/
def findItemByNode (items : List (Nat × Item)) (n : NodeID) : Option Item :=
  match items with
  | [] => none
  | (_, it) :: t => if it.nodeID = n then some it else findItemByNode t n

/-- The `toRemove` collection loop of `RemoveNodeIDs` (subscription.go):
nodes without a matching item are silently skipped. -/
def collectToRemove (items : List (Nat × Item)) (nodes : List NodeID) : List Item :=
  match nodes with
  | [] => []
  | n :: rest =>
      match findItemByNode items n with
      | some it => it :: collectToRemove items rest
      | none => collectToRemove items rest

/-- First loop of `RemoveMonitorItems` (subscription.go): for each item,
fail with `item not found` if its id is absent, otherwise delete it from both
indices and collect its id for the RPC. -/
def removeItemsLoop (st : SubState) (items : List Item) :
    SubState × Except MonError (List Nat) :=
  match items with
  | [] => (st, .ok [])
  | it :: rest =>
      match lookupA st.itemLookup it.id with
      | none => (st, .error (.itemNotFound it.id))
      | some _ =>
          let st1 := { st with itemLookup := eraseA st.itemLookup it.id,
                               handles := eraseA st.handles it.handle }
          match removeItemsLoop st1 rest with
          | (st2, .ok ids) => (st2, .ok (it.id :: ids))
          | (st2, .error e) => (st2, .error e)

/-- `Subscription.RemoveMonitorItems` (subscription.go). -/
def RemoveMonitorItems (st : SubState) (items : List Item)
    (rpc : RpcOutcome UnmonitorResponse) : SubState × Except MonError Unit :=
  if items = [] then (st, .ok ())
  else
    match removeItemsLoop st items with
    | (st1, .error e) => (st1, .error e)
    | (st1, .ok toRemove) =>
        match rpc with
        | .rpcErr e => (st1, .error e)
        | .ok resp =>
            if resp.serviceResult ≠ StatusOK then
              (st1, .error (.serviceResult resp.serviceResult))
            else if resp.results.length ≠ toRemove.length then
              (st1, .error (.lengthMismatch "unmonitor items response length mismatch"))
            else
              match resp.results.find? (fun r => r != StatusOK) with
              | some r => (st1, .error (.itemStatus r))
              | none => (st1, .ok ())

/-- `Subscription.RemoveNodeIDs` (subscription.go): resolve nodes to items by
linear scan (unknown nodes are skipped, not reported) and delegate to
`RemoveMonitorItems`. -/
def RemoveNodeIDs (st : SubState) (nodes : List NodeID)
    (rpc : RpcOutcome UnmonitorResponse) : SubState × Except MonError Unit :=
  if nodes = [] then (st, .ok ())
  else RemoveMonitorItems st (collectToRemove st.itemLookup nodes) rpc

structure MonitoredItemModifyRequest where
  monitoredItemID : Nat
  requestedParameters : MonitoringParameters
deriving DecidableEq, Repr

/-- The inner scan of `ModifyMonitorItems`: first item matching the node; a
match without monitoring parameters produces no request. -/
def findModifyFor (items : List (Nat × Item)) (node : Request) :
    Option MonitoredItemModifyRequest :=
  match items with
  | [] => none
  | (_, it) :: t =>
      if it.nodeID ≠ node.nodeID then findModifyFor t node
      else
        match node.monitoringParameters with
        | none => none
        | some p => some { monitoredItemID := it.id,
                           requestedParameters := { p with clientHandle := it.handle } }

def collectToModify (items : List (Nat × Item)) (nodes : List Request) :
    List MonitoredItemModifyRequest :=
  match nodes with
  | [] => []
  | n :: rest =>
      match findModifyFor items n with
      | some r => r :: collectToModify items rest
      | none => collectToModify items rest

/-- `Subscription.ModifyMonitorItems` (subscription.go): indices are never
modified, only the RPC response is validated. -/
def ModifyMonitorItems (st : SubState) (nodes : List Request)
    (rpc : RpcOutcome ModifyResponse) : SubState × Except MonError Unit :=
  if nodes = [] then (st, .ok ())
  else
    let toModify := collectToModify st.itemLookup nodes
    match rpc with
    | .rpcErr e => (st, .error e)
    | .ok resp =>
        if resp.serviceResult ≠ StatusOK then
          (st, .error (.serviceResult resp.serviceResult))
        else if resp.results.length ≠ toModify.length then
          (st, .error (.lengthMismatch "modify monitored items response length mismatch"))
        else
          match resp.results.find? (fun r => r.statusCode != StatusOK) with
          | some r => (st, .error (.itemStatus r.statusCode))
          | none => (st, .ok ())

set_option linter.unusedVariables false in
/-- `Subscription.SetMonitoringMode` (subscription.go): mode changes never
alter the indices.  The mode itself travels only inside the RPC, whose
outcome is the oracle input. -/
def SetMonitoringMode (st : SubState) (monitoringMode : Nat) (items : List Item)
    (rpc : RpcOutcome SetModeResponse) : SubState × Except MonError Unit :=
  if items = [] then (st, .ok ())
  else
    let toSet := items.map Item.id
    match rpc with
    | .rpcErr e => (st, .error e)
    | .ok resp =>
        if resp.serviceResult ≠ StatusOK then
          (st, .error (.serviceResult resp.serviceResult))
        else if resp.results.length ≠ toSet.length then
          (st, .error (.lengthMismatch "set monitoring mode response length mismatch"))
        else
          match resp.results.find? (fun r => r != StatusOK) with
          | some r => (st, .error (.itemStatus r))
          | none => (st, .ok ())

/-- `Subscription.Unsubscribe` (both revisions): `close(s.closed)` followed by
the `Cancel` RPC.  The source carries a `TODO: make idempotent`; closing an
already-closed Go channel panics, which the `Bool` component records.  On the
panic path the RPC never runs (the return value component is a placeholder). -/
def Unsubscribe (st : SubState) (cancelResult : Except MonError Unit) :
    SubState × Except MonError Unit × Bool :=
  if st.closed then (st, .ok (), true)
  else ({ st with closed := true }, cancelResult, false)

/-! ### Notification pump (`subscription.go` revision) -/

structure MonitoredItemNotification where
  clientHandle : Nat
  value : DataValue
deriving DecidableEq, Repr

/-- Payload of a raw notification: a recognised data-change batch or an
unknown dynamic type (`default` branch of the type switch). -/
inductive NotificationValue where
  | dataChange (monitoredItems : List MonitoredItemNotification)
  | unknown (tag : String)
deriving DecidableEq, Repr

/-- `opcua.PublishNotificationData`. -/
structure PublishNotificationData where
  subscriptionID : Nat
  error : Option MonError
  value : NotificationValue
deriving DecidableEq, Repr

def recordCount (msg : PublishNotificationData) : Nat :=
  match msg.value with
  | .dataChange items => items.length
  | .unknown _ => 0

def isDataChange : NotificationValue → Bool
  | .dataChange _ => true
  | .unknown _ => false

/-- `monitor.DataChangeMessage`: Go zero value has all three fields nil. -/
structure DataChangeMessage where
  dataValue : Option DataValue
  error : Option MonError
  nodeID : Option NodeID
deriving DecidableEq, Repr

/-- Delivery mode of the pump: `pump(ctx, notifyCh, cb)` is started with
exactly one of the channel (`ChanSubscribe`) or the callback (`Subscribe`)
non-nil; `neither` is the configuration that would hit the
`panic("notifyCh or cb must be set")` branch. -/
inductive Consumer where
  | chan (capacity : Nat)
  | cb
  | neither
deriving DecidableEq, Repr

structure PumpConfig where
  subID : Nat
  consumer : Consumer
  internalCap : Nat
  hasErrHandler : Bool
deriving DecidableEq, Repr

/-- Observable pump effects: the counters, the bounded consumer channel's
buffered contents, the messages handed to the callback, and the errors handed
to the registry's error handler. -/
structure PumpState where
  delivered : Nat
  dropped : Nat
  chanBuf : List DataChangeMessage
  cbOut : List DataChangeMessage
  errsSent : List MonError
deriving DecidableEq, Repr

/-- `Subscription.sendError`: forwards to the registry's handler when one is
installed (the nil-error guard is vacuous here since `e` is always present). -/
def sendError (hasErr : Bool) (ps : PumpState) (e : MonError) : PumpState :=
  if hasErr then { ps with errsSent := ps.errsSent ++ [e] } else ps

/-- The per-record message construction shared by both pump revisions: look
the client handle up in `handles`; a miss yields a message carrying only a
handle-not-found error, a hit yields the node and the new value. -/
def mkChangeMessage (handles : List (Nat × NodeID))
    (rec : MonitoredItemNotification) : DataChangeMessage :=
  match lookupA handles rec.clientHandle with
  | none => { dataValue := none, error := some (.handleNotFound rec.clientHandle), nodeID := none }
  | some nid => { dataValue := some rec.value, error := none, nodeID := some nid }

/-- Delivery of one change message (subscription.go): non-blocking channel
send (success increments `delivered`, full buffer increments `dropped` and
notifies the handler), synchronous callback, or the must-be-set panic.  The
channel model assumes no concurrent draining during the dispatch. -/
def dispatchRecord (cfg : PumpConfig) (handles : List (Nat × NodeID))
    (ps : PumpState) (rec : MonitoredItemNotification) : PumpState × Bool :=
  let out := mkChangeMessage handles rec
  match cfg.consumer with
  | .chan cap =>
      if ps.chanBuf.length < cap then
        ({ ps with chanBuf := ps.chanBuf ++ [out], delivered := ps.delivered + 1 }, false)
      else
        (sendError cfg.hasErrHandler { ps with dropped := ps.dropped + 1 } .slowConsumer, false)
  | .cb =>
      ({ ps with cbOut := ps.cbOut ++ [out], delivered := ps.delivered + 1 }, false)
  | .neither => (ps, true)

def dispatchRecords (cfg : PumpConfig) (handles : List (Nat × NodeID))
    (ps : PumpState) (recs : List MonitoredItemNotification) : PumpState × Bool :=
  match recs with
  | [] => (ps, false)
  | r :: rest =>
      let s1 := dispatchRecord cfg handles ps r
      if s1.2 then (s1.1, true) else dispatchRecords cfg handles s1.1 rest

/-- One iteration of `Subscription.pump` (subscription.go) on a received
notification.  `internalLen` is the observed fill level of
`s.internalNotifyCh` at the emulated slow-consumer check (a runtime input). -/
def pumpStep (cfg : PumpConfig) (handles : List (Nat × NodeID)) (ps : PumpState)
    (msg : PublishNotificationData) (internalLen : Nat) : PumpState × Bool :=
  match msg.error with
  | some e => (sendError cfg.hasErrHandler ps e, false)
  | none =>
      if msg.subscriptionID ≠ cfg.subID then
        (sendError cfg.hasErrHandler ps (.subIDMismatch msg.subscriptionID cfg.subID), false)
      else if cfg.consumer = Consumer.cb ∧ 0 < cfg.internalCap ∧ internalLen = cfg.internalCap then
        let ps1 := sendError cfg.hasErrHandler ps .slowConsumer
        ({ ps1 with dropped := ps1.dropped + 1 }, false)
      else
        match msg.value with
        | .dataChange items => dispatchRecords cfg handles ps items
        | .unknown tag => (sendError cfg.hasErrHandler ps (.unknownMessageType tag), false)

/-- The pump processing a sequence of notifications (each paired with the
observed internal-channel fill level); a panic aborts the loop. -/
def pumpRun (cfg : PumpConfig) (handles : List (Nat × NodeID)) (ps : PumpState)
    (events : List (PublishNotificationData × Nat)) : PumpState × Bool :=
  match events with
  | [] => (ps, false)
  | (m, il) :: rest =>
      let s1 := pumpStep cfg handles ps m il
      if s1.2 then (s1.1, true) else pumpRun cfg handles s1.1 rest

/-! ### Older revision (`monitor.go`) -/

/-- Subscription state of the `monitor.go` revision: the secondary index maps
the node's string form to its client handle. -/
structure MSubState where
  delivered : Nat
  dropped : Nat
  handles : List (Nat × NodeID)
  nodeLookup : List (String × Nat)
  subID : Nat
  closed : Bool
  nextClientHandle : Nat
deriving DecidableEq, Repr

/-- The pre-RPC loop of `AddNodeIDs` (monitor.go): allocate a handle, insert
into both `handles` and `nodeLookup`, and build the create request. -/
def mReserve (st : MSubState) (nodes : List NodeID) :
    MSubState × List MonitoredItemCreateRequest :=
  match nodes with
  | [] => (st, [])
  | n :: rest =>
      let h := (st.nextClientHandle + 1) % u32
      let st1 := { st with nextClientHandle := h,
                           handles := insertA st.handles h n,
                           nodeLookup := insertA st.nodeLookup n h }
      let r := mReserve st1 rest
      (r.1, ({ nodeID := n, attributeID := attributeIDValue, clientHandle := h,
               monitoringMode := monitoringModeReporting,
               requestedParameters := none } : MonitoredItemCreateRequest) :: r.2)

/-- `Subscription.AddNodeIDs` (monitor.go): no empty-batch guard, no
result-count or per-item checks — only the top-level service result. -/
def MAddNodeIDs (st : MSubState) (nodes : List NodeID)
    (rpc : RpcOutcome MonitorResponse) : MSubState × Except MonError Unit :=
  let r := mReserve st nodes
  match rpc with
  | .rpcErr e => (r.1, .error e)
  | .ok resp =>
      if resp.serviceResult ≠ StatusOK then (r.1, .error (.serviceResult resp.serviceResult))
      else (r.1, .ok ())

/-- The removal loop of `RemoveNodeIDs` (monitor.go): an unknown node aborts
with `node not found`; known nodes are deleted from both indices. -/
def mRemoveLoop (st : MSubState) (nodes : List NodeID) :
    MSubState × Except MonError (List Nat) :=
  match nodes with
  | [] => (st, .ok [])
  | n :: rest =>
      match lookupA st.nodeLookup n with
      | none => (st, .error (.nodeNotFound n))
      | some h =>
          let st1 := { st with nodeLookup := eraseA st.nodeLookup n,
                               handles := eraseA st.handles h }
          match mRemoveLoop st1 rest with
          | (st2, .ok hs) => (st2, .ok (h :: hs))
          | (st2, .error e) => (st2, .error e)

/-- `Subscription.RemoveNodeIDs` (monitor.go). -/
def MRemoveNodeIDs (st : MSubState) (nodes : List NodeID)
    (rpc : RpcOutcome UnmonitorResponse) : MSubState × Except MonError Unit :=
  match mRemoveLoop st nodes with
  | (st1, .error e) => (st1, .error e)
  | (st1, .ok _) =>
      match rpc with
      | .rpcErr e => (st1, .error e)
      | .ok resp =>
          if resp.serviceResult ≠ StatusOK then (st1, .error (.serviceResult resp.serviceResult))
          else (st1, .ok ())

/-- Channel delivery of one record in the `monitor.go` pump (delivery is
always through `s.notifyCh`; no panic is possible here). -/
def monitorDispatch (cap : Nat) (hasErr : Bool) (handles : List (Nat × NodeID))
    (ps : PumpState) (rec : MonitoredItemNotification) : PumpState :=
  let out := mkChangeMessage handles rec
  if ps.chanBuf.length < cap then
    { ps with chanBuf := ps.chanBuf ++ [out], delivered := ps.delivered + 1 }
  else
    sendError hasErr { ps with dropped := ps.dropped + 1 } .slowConsumer

/-- One iteration of `Subscription.pump` (monitor.go): a notification whose
subscription id differs from the receiving subscription's id hits
`panic("wtf!?")` — the `Bool` result records that panic. -/
def monitorPumpStep (sid cap : Nat) (hasErr : Bool)
    (handles : List (Nat × NodeID)) (ps : PumpState)
    (msg : PublishNotificationData) : PumpState × Bool :=
  match msg.error with
  | some e => (sendError hasErr ps e, false)
  | none =>
      if msg.subscriptionID ≠ sid then (ps, true)
      else
        match msg.value with
        | .dataChange recs => (recs.foldl (monitorDispatch cap hasErr handles) ps, false)
        | .unknown tag => (sendError hasErr ps (.unknownMessageType tag), false)

/-! ### Subscription construction -/

/-- `newSubscription` (subscription.go; `ChanSubscribe` in monitor.go has the
same shape): open the transport-level subscription, then add the initial
nodes.  `subscribeErr` is the outcome of `m.client.Subscribe`, `addRpc` the
outcome of the initial `Monitor` RPC.  The `Bool` component records whether
the transport-level subscription's `Cancel` was invoked before returning —
the source never invokes it on the failing add path, so it is `false`
everywhere. -/
def newSubscription (nextHandle subID : Nat) (subscribeErr : Option MonError)
    (nodes : List NodeID) (addRpc : RpcOutcome MonitorResponse) :
    Except MonError SubState × Bool :=
  match subscribeErr with
  | some e => (.error e, false)
  | none =>
      let st : SubState :=
        { delivered := 0, dropped := 0, handles := [], itemLookup := [],
          subID := subID, closed := false, nextClientHandle := nextHandle }
      let r := AddNodeIDs st nodes addRpc
      match r.2 with
      | .error e => (.error e, false)
      | .ok _ => (.ok r.1, false)

/-- The handles a batch of size `n` receives when the counter stands at `s`:
`s+1, s+2, ..., s+n` (no wraparound). -/
def handleSeq (s : Nat) : Nat → List Nat
  | 0 => []
  | n + 1 => (s + 1) :: handleSeq (s + 1) n

/-! ## Helper lemmas -/

theorem insertA_length_of_not_mem {κ α : Type} [DecidableEq κ]
    (l : List (κ × α)) (k : κ) (v : α) (h : k ∉ keysA l) :
    (insertA l k v).length = l.length + 1 := by
  induction l with
  | nil => simp [insertA]
  | cons p t ih =>
      simp only [keysA, List.map_cons, List.mem_cons] at h
      push_neg at h
      simp only [insertA]
      rw [if_neg (fun hh => h.1 hh.symm)]
      simp [ih (by simpa [keysA] using h.2)]

theorem mem_keysA_insertA {κ α : Type} [DecidableEq κ]
    (l : List (κ × α)) (k : κ) (v : α) (x : κ)
    (hx : x ∈ keysA (insertA l k v)) : x = k ∨ x ∈ keysA l := by
  induction l with
  | nil => simpa [insertA, keysA] using hx
  | cons p t ih =>
      by_cases hpk : p.1 = k
      · simp only [insertA] at hx
        rw [if_pos hpk] at hx
        simp only [keysA, List.map_cons, List.mem_cons] at hx ⊢
        rcases hx with h | h
        · exact Or.inl h
        · exact Or.inr (Or.inr h)
      · simp only [insertA] at hx
        rw [if_neg hpk] at hx
        simp only [keysA, List.map_cons, List.mem_cons] at hx ⊢
        rcases hx with h | h
        · exact Or.inr (Or.inl h)
        · rcases ih h with h' | h'
          · exact Or.inl h'
          · exact Or.inr (Or.inr h')

theorem mem_handleSeq (n : Nat) : ∀ (s x : Nat), x ∈ handleSeq s n ↔ s < x ∧ x ≤ s + n := by
  induction n with
  | zero =>
      intro s x
      rw [show handleSeq s 0 = [] from rfl]
      simp only [List.not_mem_nil, false_iff]
      omega
  | succ m ih =>
      intro s x
      simp only [handleSeq, List.mem_cons, ih (s + 1)]
      omega

theorem handleSeq_nodup (n : Nat) : ∀ s : Nat, (handleSeq s n).Nodup := by
  induction n with
  | zero => intro s; simp [handleSeq]
  | succ m ih =>
      intro s
      simp only [handleSeq, List.nodup_cons]
      refine ⟨fun hmem => ?_, ih (s + 1)⟩
      have := (mem_handleSeq m (s + 1) (s + 1)).mp hmem
      omega

theorem handleSeq_length (n : Nat) : ∀ s : Nat, (handleSeq s n).length = n := by
  induction n with
  | zero => intro s; simp [handleSeq]
  | succ m ih => intro s; simp [handleSeq, ih]

/-- Characterisation of the speculative-reservation phase of
`AddMonitorItems`: the counter advances by the batch size, the reserved
handles are exactly `handleSeq`, the other state fields are untouched, and —
when every existing handle key is bounded by the counter — the `handles`
index grows by exactly the batch size and stays bounded by the new counter. -/
theorem reserveHandles_spec (nodes : List Request) :
    ∀ st : SubState, st.nextClientHandle + nodes.length < u32 →
    (reserveHandles st nodes).1.nextClientHandle = st.nextClientHandle + nodes.length ∧
    (reserveHandles st nodes).2.1.map Request.handle = handleSeq st.nextClientHandle nodes.length ∧
    (reserveHandles st nodes).2.2.map MonitoredItemCreateRequest.clientHandle
      = handleSeq st.nextClientHandle nodes.length ∧
    (reserveHandles st nodes).2.1.length = nodes.length ∧
    (reserveHandles st nodes).2.2.length = nodes.length ∧
    (reserveHandles st nodes).1.itemLookup = st.itemLookup ∧
    (reserveHandles st nodes).1.delivered = st.delivered ∧
    (reserveHandles st nodes).1.dropped = st.dropped ∧
    (reserveHandles st nodes).1.subID = st.subID ∧
    (reserveHandles st nodes).1.closed = st.closed ∧
    ((∀ k ∈ keysA st.handles, k ≤ st.nextClientHandle) →
      (reserveHandles st nodes).1.handles.length = st.handles.length + nodes.length ∧
      (∀ k ∈ keysA (reserveHandles st nodes).1.handles, k ≤ st.nextClientHandle + nodes.length)) := by
  induction nodes with
  | nil =>
      intro st _
      simp [reserveHandles, handleSeq]
  | cons node rest ih =>
      intro st hwrap
      have hmod : (st.nextClientHandle + 1) % u32 = st.nextClientHandle + 1 := by
        apply Nat.mod_eq_of_lt
        simp only [List.length_cons] at hwrap
        omega
      obtain ⟨h1, h2, h3, h4, h5, h6, h7, h8, h9, h10, h11⟩ :=
        ih { st with nextClientHandle := st.nextClientHandle + 1,
                     handles := insertA st.handles (st.nextClientHandle + 1) node.nodeID }
          (show st.nextClientHandle + 1 + rest.length < u32 by
            simp only [List.length_cons] at hwrap
            omega)
      simp only [reserveHandles, hmod]
      refine ⟨?_, ?_, ?_, ?_, ?_, ?_, ?_, ?_, ?_, ?_, ?_⟩
      · simp only [List.length_cons]
        simp only at h1
        rw [h1]
        omega
      · simp only [List.map_cons, List.length_cons, handleSeq]
        refine List.cons_eq_cons.mpr ⟨rfl, ?_⟩
        simpa using h2
      · simp only [List.map_cons, List.length_cons, handleSeq]
        refine List.cons_eq_cons.mpr ⟨rfl, ?_⟩
        simpa using h3
      · simpa using h4
      · simpa using h5
      · simpa using h6
      · simpa using h7
      · simpa using h8
      · simpa using h9
      · simpa using h10
      · intro hkeys
        have hfresh : (st.nextClientHandle + 1) ∉ keysA st.handles := by
          intro hmem
          exact absurd (hkeys _ hmem) (by omega)
        have hkeys1 : ∀ k ∈ keysA (insertA st.handles (st.nextClientHandle + 1) node.nodeID),
            k ≤ st.nextClientHandle + 1 := by
          intro k hk
          rcases mem_keysA_insertA st.handles (st.nextClientHandle + 1) node.nodeID k hk with h | h
          · omega
          · exact Nat.le_succ_of_le (hkeys _ h)
        obtain ⟨hlen, hbound⟩ := h11 (by simpa using hkeys1)
        constructor
        · simp only at hlen
          rw [hlen, insertA_length_of_not_mem st.handles _ _ hfresh]
          simp only [List.length_cons]
          omega
        · intro k hk
          have := hbound k hk
          simp only [List.length_cons] at this ⊢
          omega

/-- `commitItems` touches only `itemLookup`: every other field is preserved. -/
theorem commitItems_preserves (rows : List (CreateResult × Request × MonitoredItemCreateRequest)) :
    ∀ (st : SubState) (acc : List Item),
    (commitItems st rows acc).1.handles = st.handles ∧
    (commitItems st rows acc).1.nextClientHandle = st.nextClientHandle ∧
    (commitItems st rows acc).1.delivered = st.delivered ∧
    (commitItems st rows acc).1.dropped = st.dropped ∧
    (commitItems st rows acc).1.subID = st.subID ∧
    (commitItems st rows acc).1.closed = st.closed := by
  induction rows with
  | nil => intro st acc; simp [commitItems]
  | cons row rest ih =>
      intro st acc
      obtain ⟨res, node, req⟩ := row
      simp only [commitItems]
      by_cases hsc : res.statusCode ≠ StatusOK
      · rw [if_pos hsc]
        exact ⟨rfl, rfl, rfl, rfl, rfl, rfl⟩
      · rw [if_neg hsc]
        exact ih _ _

/-- `commitItems` on an all-OK result list succeeds and returns the items in
request order. -/
theorem commitItems_ok (rows : List (CreateResult × Request × MonitoredItemCreateRequest)) :
    ∀ (st : SubState) (acc : List Item),
    (∀ row ∈ rows, row.1.statusCode = StatusOK) →
    (commitItems st rows acc).2 = .ok (acc ++ rows.map (fun row =>
      ({ id := row.1.monitoredItemID, handle := row.2.1.handle, nodeID := row.2.2.nodeID } : Item))) := by
  induction rows with
  | nil => intro st acc _; simp [commitItems]
  | cons row rest ih =>
      intro st acc hok
      obtain ⟨res, node, req⟩ := row
      have hres : res.statusCode = StatusOK := hok _ (List.mem_cons_self _ _)
      simp only [commitItems]
      rw [if_neg (by simp [hres])]
      rw [ih _ _ (fun r hr => hok r (List.mem_cons_of_mem _ hr))]
      simp

/-- `commitItems` fails as soon as some row carries a non-OK status. -/
theorem commitItems_err (rows : List (CreateResult × Request × MonitoredItemCreateRequest)) :
    ∀ (st : SubState) (acc : List Item),
    (∃ row ∈ rows, row.1.statusCode ≠ StatusOK) →
    ∃ e, (commitItems st rows acc).2 = .error e := by
  induction rows with
  | nil => intro st acc h; simp at h
  | cons row rest ih =>
      intro st acc h
      obtain ⟨res, node, req⟩ := row
      simp only [commitItems]
      by_cases hsc : res.statusCode ≠ StatusOK
      · rw [if_pos hsc]
        exact ⟨_, rfl⟩
      · rw [if_neg hsc]
        apply ih
        rcases h with ⟨r, hr, hbad⟩
        rcases List.mem_cons.mp hr with rfl | hr'
        · exact absurd hbad hsc
        · exact ⟨r, hr', hbad⟩

/-- Every member of the left list of a zip (with the right list at least as
long) appears as the first component of some zipped pair. -/
theorem exists_mem_zip_fst {A B : Type} (as : List A) :
    ∀ (bs : List B) (a : A), as.length ≤ bs.length → a ∈ as →
    ∃ p ∈ as.zip bs, p.1 = a := by
  induction as with
  | nil => intro bs a _ h; simp at h
  | cons x xs ih =>
      intro bs a hlen ha
      cases bs with
      | nil => simp at hlen
      | cons y ys =>
          rcases List.mem_cons.mp ha with rfl | ha'
          · exact ⟨(a, y), List.mem_cons_self _ _, rfl⟩
          · obtain ⟨p, hp, hpa⟩ := ih ys a (by simpa using hlen) ha'
            exact ⟨p, List.mem_cons_of_mem _ hp, hpa⟩

/-- Projecting the middle component out of a three-way zip of equal-length
lists recovers the middle list. -/
theorem zip_map_middle {A B C : Type} (bs : List B) :
    ∀ (as : List A) (cs : List C), as.length = bs.length → bs.length = cs.length →
    (as.zip (bs.zip cs)).map (fun x => x.2.1) = bs := by
  induction bs with
  | nil =>
      intro as cs h1 _
      rw [List.length_nil] at h1
      rw [List.eq_nil_of_length_eq_zero h1]
      simp
  | cons b bt ih =>
      intro as cs h1 h2
      cases as with
      | nil => simp at h1
      | cons a at' =>
          cases cs with
          | nil => simp at h2
          | cons c ct =>
              simp only [List.zip_cons_cons, List.map_cons]
              rw [ih at' ct (by simpa using h1) (by simpa using h2)]

/-- Total number of per-item change records carried by a sequence of
notifications. -/
def totalRecords (events : List (PublishNotificationData × Nat)) : Nat :=
  (events.map (fun e => recordCount e.1)).sum

theorem sendError_effects (he : Bool) (ps : PumpState) (e : MonError) :
    (sendError he ps e).delivered = ps.delivered ∧
    (sendError he ps e).dropped = ps.dropped ∧
    (sendError he ps e).chanBuf = ps.chanBuf ∧
    (sendError he ps e).cbOut = ps.cbOut := by
  cases he <;> simp [sendError]

/-- Channel-mode delivery of one record never panics; it either appends the
message and bumps `delivered` (buffer below capacity) or bumps `dropped` and
notifies the handler (buffer full). -/
theorem dispatchRecord_chan (cfg : PumpConfig) (C : Nat) (hc : cfg.consumer = .chan C)
    (handles : List (Nat × NodeID)) (ps : PumpState) (rec : MonitoredItemNotification) :
    (dispatchRecord cfg handles ps rec).2 = false ∧
    (ps.chanBuf.length < C →
      dispatchRecord cfg handles ps rec =
        ({ ps with chanBuf := ps.chanBuf ++ [mkChangeMessage handles rec],
                   delivered := ps.delivered + 1 }, false)) ∧
    (¬ ps.chanBuf.length < C →
      dispatchRecord cfg handles ps rec =
        (sendError cfg.hasErrHandler { ps with dropped := ps.dropped + 1 } .slowConsumer, false)) := by
  simp only [dispatchRecord, hc]
  by_cases hb : ps.chanBuf.length < C
  · rw [if_pos hb]
    exact ⟨rfl, fun _ => rfl, fun h => absurd hb h⟩
  · rw [if_neg hb]
    refine ⟨?_, fun h => absurd h hb, fun _ => rfl⟩
    obtain ⟨-, -, -, -⟩ := sendError_effects cfg.hasErrHandler
      { ps with dropped := ps.dropped + 1 } .slowConsumer
    rfl

/-- In channel mode every record adds exactly one to `delivered + dropped`
and the dispatch never panics. -/
theorem dispatchRecords_chan_sum (cfg : PumpConfig) (C : Nat) (hc : cfg.consumer = .chan C)
    (handles : List (Nat × NodeID)) (recs : List MonitoredItemNotification) :
    ∀ ps : PumpState,
    (dispatchRecords cfg handles ps recs).1.delivered + (dispatchRecords cfg handles ps recs).1.dropped
      = ps.delivered + ps.dropped + recs.length ∧
    (dispatchRecords cfg handles ps recs).2 = false := by
  induction recs with
  | nil => intro ps; simp [dispatchRecords]
  | cons r rest ih =>
      intro ps
      obtain ⟨hpf, hdel, hdrop⟩ := dispatchRecord_chan cfg C hc handles ps r
      simp only [dispatchRecords]
      by_cases hb : ps.chanBuf.length < C
      · rw [hdel hb]
        simp only [Bool.false_eq_true, if_false]
        obtain ⟨hsum, hnp⟩ := ih { ps with chanBuf := ps.chanBuf ++ [mkChangeMessage handles r],
                                           delivered := ps.delivered + 1 }
        refine ⟨?_, hnp⟩
        rw [hsum]
        simp only [List.length_cons]
        omega
      · rw [hdrop hb]
        simp only [Bool.false_eq_true, if_false]
        obtain ⟨hsum, hnp⟩ := ih (sendError cfg.hasErrHandler
          { ps with dropped := ps.dropped + 1 } .slowConsumer)
        refine ⟨?_, hnp⟩
        rw [hsum]
        obtain ⟨he1, he2, -, -⟩ := sendError_effects cfg.hasErrHandler
          { ps with dropped := ps.dropped + 1 } .slowConsumer
        rw [he1, he2]
        simp only [List.length_cons]
        omega

/-- Exact overflow characterisation: starting with `b ≤ C` buffered messages
and `b + n = C + 1` records, channel-mode dispatch delivers `C - b`, drops
exactly one, and notifies the installed error handler exactly once. -/
theorem dispatchRecords_chan_overflow (cfg : PumpConfig) (C : Nat)
    (hc : cfg.consumer = .chan C) (hh : cfg.hasErrHandler = true)
    (handles : List (Nat × NodeID)) (recs : List MonitoredItemNotification) :
    ∀ ps : PumpState, ps.chanBuf.length ≤ C → ps.chanBuf.length + recs.length = C + 1 →
    (dispatchRecords cfg handles ps recs).1.delivered = ps.delivered + (C - ps.chanBuf.length) ∧
    (dispatchRecords cfg handles ps recs).1.dropped = ps.dropped + 1 ∧
    (dispatchRecords cfg handles ps recs).1.errsSent = ps.errsSent ++ [.slowConsumer] ∧
    (dispatchRecords cfg handles ps recs).2 = false := by
  induction recs with
  | nil =>
      intro ps hle heq
      exfalso
      simp only [List.length_nil, Nat.add_zero] at heq
      omega
  | cons r rest ih =>
      intro ps hle heq
      obtain ⟨hpf, hdel, hdrop⟩ := dispatchRecord_chan cfg C hc handles ps r
      simp only [dispatchRecords]
      by_cases hb : ps.chanBuf.length < C
      · rw [hdel hb]
        simp only [Bool.false_eq_true, if_false]
        have hlen1 : ({ ps with chanBuf := ps.chanBuf ++ [mkChangeMessage handles r],
                                delivered := ps.delivered + 1 } : PumpState).chanBuf.length
            = ps.chanBuf.length + 1 := by
          simp
        obtain ⟨i1, i2, i3, i4⟩ := ih { ps with chanBuf := ps.chanBuf ++ [mkChangeMessage handles r],
                                                delivered := ps.delivered + 1 }
          (by rw [hlen1]; omega)
          (by rw [hlen1]; simp only [List.length_cons] at heq; omega)
        refine ⟨?_, ?_, ?_, i4⟩
        · rw [i1, hlen1]
          simp only
          omega
        · rw [i2]
        · rw [i3]
      · have hbeq : ps.chanBuf.length = C := by omega
        have hrest : rest = [] := by
          have : rest.length = 0 := by
            simp only [List.length_cons] at heq
            omega
          exact List.eq_nil_of_length_eq_zero this
        rw [hdrop hb, hrest]
        simp [dispatchRecords, sendError, hh, hbeq]

theorem dispatchRecord_sum_mono (cfg : PumpConfig) (handles : List (Nat × NodeID))
    (ps : PumpState) (rec : MonitoredItemNotification) :
    ps.delivered + ps.dropped ≤
      (dispatchRecord cfg handles ps rec).1.delivered + (dispatchRecord cfg handles ps rec).1.dropped := by
  cases hcons : cfg.consumer with
  | chan C =>
      by_cases hb : ps.chanBuf.length < C
      · simp only [dispatchRecord, hcons, if_pos hb]
        simp
      · simp only [dispatchRecord, hcons, if_neg hb]
        obtain ⟨he1, he2, -, -⟩ := sendError_effects cfg.hasErrHandler
          { ps with dropped := ps.dropped + 1 } .slowConsumer
        rw [he1, he2]
        simp only
        omega
  | cb => simp [dispatchRecord, hcons]
  | neither => simp [dispatchRecord, hcons]

theorem dispatchRecords_sum_mono (cfg : PumpConfig) (handles : List (Nat × NodeID))
    (recs : List MonitoredItemNotification) :
    ∀ ps : PumpState, ps.delivered + ps.dropped ≤
      (dispatchRecords cfg handles ps recs).1.delivered + (dispatchRecords cfg handles ps recs).1.dropped := by
  induction recs with
  | nil => intro ps; simp [dispatchRecords]
  | cons r rest ih =>
      intro ps
      simp only [dispatchRecords]
      by_cases hp : (dispatchRecord cfg handles ps r).2 = true
      · rw [if_pos hp]
        exact dispatchRecord_sum_mono cfg handles ps r
      · rw [if_neg hp]
        exact le_trans (dispatchRecord_sum_mono cfg handles ps r) (ih _)

/-- One pump iteration never decreases `delivered + dropped`. -/
theorem pumpStep_sum_mono (cfg : PumpConfig) (handles : List (Nat × NodeID))
    (ps : PumpState) (msg : PublishNotificationData) (il : Nat) :
    ps.delivered + ps.dropped ≤
      (pumpStep cfg handles ps msg il).1.delivered + (pumpStep cfg handles ps msg il).1.dropped := by
  simp only [pumpStep]
  cases herr : msg.error with
  | some e =>
      obtain ⟨he1, he2, -, -⟩ := sendError_effects cfg.hasErrHandler ps e
      rw [he1, he2]
  | none =>
      by_cases hid : msg.subscriptionID ≠ cfg.subID
      · rw [if_pos hid]
        obtain ⟨he1, he2, -, -⟩ := sendError_effects cfg.hasErrHandler ps
          (.subIDMismatch msg.subscriptionID cfg.subID)
        rw [he1, he2]
      · rw [if_neg hid]
        by_cases hslow : cfg.consumer = Consumer.cb ∧ 0 < cfg.internalCap ∧ il = cfg.internalCap
        · rw [if_pos hslow]
          obtain ⟨he1, he2, -, -⟩ := sendError_effects cfg.hasErrHandler ps .slowConsumer
          simp only [he1, he2]
          omega
        · rw [if_neg hslow]
          cases msg.value with
          | dataChange items => exact dispatchRecords_sum_mono cfg handles items ps
          | unknown tag =>
              obtain ⟨he1, he2, -, -⟩ := sendError_effects cfg.hasErrHandler ps
                (.unknownMessageType tag)
              rw [he1, he2]

/-- Processing any event sequence never decreases `delivered + dropped`. -/
theorem pumpRun_sum_mono (cfg : PumpConfig) (handles : List (Nat × NodeID))
    (events : List (PublishNotificationData × Nat)) :
    ∀ ps : PumpState, ps.delivered + ps.dropped ≤
      (pumpRun cfg handles ps events).1.delivered + (pumpRun cfg handles ps events).1.dropped := by
  induction events with
  | nil => intro ps; simp [pumpRun]
  | cons ev rest ih =>
      intro ps
      obtain ⟨m, il⟩ := ev
      simp only [pumpRun]
      by_cases hp : (pumpStep cfg handles ps m il).2 = true
      · rw [if_pos hp]
        exact pumpStep_sum_mono cfg handles ps m il
      · rw [if_neg hp]
        exact le_trans (pumpStep_sum_mono cfg handles ps m il) (ih _)

/-- In channel mode, a valid data-change notification contributes exactly its
record count to `delivered + dropped` and never panics. -/
theorem pumpStep_chan_sum (cfg : PumpConfig) (C : Nat) (hc : cfg.consumer = .chan C)
    (handles : List (Nat × NodeID)) (ps : PumpState) (msg : PublishNotificationData) (il : Nat)
    (herr : msg.error = none) (hid : msg.subscriptionID = cfg.subID)
    (hdc : isDataChange msg.value = true) :
    (pumpStep cfg handles ps msg il).1.delivered + (pumpStep cfg handles ps msg il).1.dropped
      = ps.delivered + ps.dropped + recordCount msg ∧
    (pumpStep cfg handles ps msg il).2 = false := by
  have hnotcb : ¬ (cfg.consumer = Consumer.cb ∧ 0 < cfg.internalCap ∧ il = cfg.internalCap) := by
    rw [hc]
    rintro ⟨h, -, -⟩
    exact Consumer.noConfusion h
  cases hv : msg.value with
  | dataChange items =>
      have hds := dispatchRecords_chan_sum cfg C hc handles items ps
      simp only [pumpStep, herr, if_neg (show ¬ msg.subscriptionID ≠ cfg.subID from fun h => h hid),
        if_neg hnotcb, hv, recordCount]
      exact hds
  | unknown tag =>
      rw [hv] at hdc
      simp [isDataChange] at hdc

/-- Running the pump over valid data-change notifications in channel mode:
`delivered + dropped` grows by exactly the total record count, with no
panic. -/
theorem pumpRun_chan_sum (cfg : PumpConfig) (C : Nat) (hc : cfg.consumer = .chan C)
    (handles : List (Nat × NodeID)) (events : List (PublishNotificationData × Nat)) :
    ∀ ps : PumpState,
    (∀ e ∈ events, e.1.error = none ∧ e.1.subscriptionID = cfg.subID ∧
      isDataChange e.1.value = true) →
    (pumpRun cfg handles ps events).1.delivered + (pumpRun cfg handles ps events).1.dropped
      = ps.delivered + ps.dropped + totalRecords events ∧
    (pumpRun cfg handles ps events).2 = false := by
  induction events with
  | nil => intro ps _; simp [pumpRun, totalRecords]
  | cons ev rest ih =>
      intro ps hvalid
      obtain ⟨m, il⟩ := ev
      obtain ⟨herr, hid, hdc⟩ := hvalid (m, il) (List.mem_cons_self _ _)
      obtain ⟨hsum, hnp⟩ := pumpStep_chan_sum cfg C hc handles ps m il herr hid hdc
      simp only [pumpRun, hnp, Bool.false_eq_true, if_false]
      obtain ⟨isum, inp⟩ := ih (pumpStep cfg handles ps m il).1
        (fun e he => hvalid e (List.mem_cons_of_mem _ he))
      refine ⟨?_, inp⟩
      rw [isum, hsum]
      simp only [totalRecords, List.map_cons, List.sum_cons]
      omega

/-! ## Sample values used by concrete counterexamples and witnesses -/

/-- A fresh subscription state: counter at the seed 100, empty indices. -/
def sampleSub : SubState :=
  { delivered := 0, dropped := 0, handles := [], itemLookup := [],
    subID := 1, closed := false, nextClientHandle := 100 }

/-- A fresh old-revision subscription state. -/
def sampleMSub : MSubState :=
  { delivered := 0, dropped := 0, handles := [], nodeLookup := [],
    subID := 1, closed := false, nextClientHandle := 100 }

/-- A pump-effect state with zero counters and empty buffers. -/
def samplePump : PumpState :=
  { delivered := 0, dropped := 0, chanBuf := [], cbOut := [], errsSent := [] }

def sampleRecA : MonitoredItemNotification := { clientHandle := 101, value := { val := 5 } }

def sampleRecB : MonitoredItemNotification := { clientHandle := 102, value := { val := 6 } }

/-- A valid notification for subscription 1 carrying two change records. -/
def sampleMsg2 : PublishNotificationData :=
  { subscriptionID := 1, error := none, value := .dataChange [sampleRecA, sampleRecB] }

/-- A valid notification for subscription 1 carrying one change record. -/
def sampleMsg1 : PublishNotificationData :=
  { subscriptionID := 1, error := none, value := .dataChange [sampleRecA] }

def sampleReqA : Request :=
  { nodeID := "ns=2;s=A", monitoringMode := 2, monitoringParameters := none, handle := 0 }

def sampleReqB : Request :=
  { nodeID := "ns=2;s=B", monitoringMode := 2, monitoringParameters := none, handle := 0 }

/-- A fully successful two-item `Monitor` response (server ids 7 and 8). -/
def sampleRespOK : MonitorResponse :=
  { serviceResult := 0,
    results := [{ statusCode := 0, monitoredItemID := 7 },
                { statusCode := 0, monitoredItemID := 8 }] }

/-! ## Claim theorems -/

/-- Claim C1, counterexample: a batch add of two nodes (counter at 100, both
indices empty) where the transport reports item 1 OK (server id 7) and item 2
with status 5 returns the per-item status error, yet the watched-count has
grown from 0 to 2 (both speculative handles remain) and `itemLookup` has
grown by the committed first item — the state is not the same as before the
call. -/
theorem claim1_counterexample :
    (AddMonitorItems
      { delivered := 0, dropped := 0, handles := [], itemLookup := [],
        subID := 1, closed := false, nextClientHandle := 100 }
      [{ nodeID := "ns=2;s=A", monitoringMode := 2, monitoringParameters := none, handle := 0 },
       { nodeID := "ns=2;s=B", monitoringMode := 2, monitoringParameters := none, handle := 0 }]
      (.ok { serviceResult := 0,
             results := [{ statusCode := 0, monitoredItemID := 7 },
                         { statusCode := 5, monitoredItemID := 8 }] })).2
      = .error (.itemStatus 5) ∧
    Subscribed (AddMonitorItems
      { delivered := 0, dropped := 0, handles := [], itemLookup := [],
        subID := 1, closed := false, nextClientHandle := 100 }
      [{ nodeID := "ns=2;s=A", monitoringMode := 2, monitoringParameters := none, handle := 0 },
       { nodeID := "ns=2;s=B", monitoringMode := 2, monitoringParameters := none, handle := 0 }]
      (.ok { serviceResult := 0,
             results := [{ statusCode := 0, monitoredItemID := 7 },
                         { statusCode := 5, monitoredItemID := 8 }] })).1 = 2 ∧
    (AddMonitorItems
      { delivered := 0, dropped := 0, handles := [], itemLookup := [],
        subID := 1, closed := false, nextClientHandle := 100 }
      [{ nodeID := "ns=2;s=A", monitoringMode := 2, monitoringParameters := none, handle := 0 },
       { nodeID := "ns=2;s=B", monitoringMode := 2, monitoringParameters := none, handle := 0 }]
      (.ok { serviceResult := 0,
             results := [{ statusCode := 0, monitoredItemID := 7 },
                         { statusCode := 5, monitoredItemID := 8 }] })).1.itemLookup.length = 1 ∧
    Subscribed { delivered := 0, dropped := 0, handles := [], itemLookup := [],
                 subID := 1, closed := false, nextClientHandle := 100 } = 0 :=
  ⟨rfl, rfl, rfl, rfl⟩

/-- Whether the transport outcome of `AddMonitorItems` is one of the failure
shapes the claim enumerates: an RPC error, a non-OK top-level service result,
a result-count mismatch, or some non-OK per-item status. -/
def addFails (nodes : List Request) (rpc : RpcOutcome MonitorResponse) : Prop :=
  match rpc with
  | .rpcErr _ => True
  | .ok resp =>
      resp.serviceResult ≠ StatusOK ∨ resp.results.length ≠ nodes.length ∨
        ∃ r ∈ resp.results, r.statusCode ≠ StatusOK

/-- Claim C1 (amended): a failed batch add returns the error, but the
speculative handle reservations are not rolled back — the watched-count is
larger by the full batch size after the call, and the registry counter has
advanced by the batch size as well.  (On a per-item status failure, items
before the failing one additionally stay committed in `itemLookup`, as the
counterexample shows.)  The `monitor.go` revision has the same gap: a failed
`AddNodeIDs` RPC returns the error with the state still equal to the
speculatively-extended state.  Hypotheses: the batch is non-empty, the
counter does not wrap, and every existing handle key is bounded by the
counter (the allocator invariant). -/
theorem claim1_amended (st : SubState) (nodes : List Request)
    (rpc : RpcOutcome MonitorResponse)
    (hne : nodes ≠ [])
    (hwrap : st.nextClientHandle + nodes.length < u32)
    (hkeys : ∀ k ∈ keysA st.handles, k ≤ st.nextClientHandle)
    (hfail : addFails nodes rpc) :
    (∃ e, (AddMonitorItems st nodes rpc).2 = .error e) ∧
    Subscribed (AddMonitorItems st nodes rpc).1 = Subscribed st + nodes.length ∧
    (AddMonitorItems st nodes rpc).1.nextClientHandle = st.nextClientHandle + nodes.length ∧
    (∀ (mst : MSubState) (e : MonError) (ns : List NodeID),
      MAddNodeIDs mst ns (.rpcErr e) = ((mReserve mst ns).1, .error e)) := by
  obtain ⟨h1, h2, h3, h4, h5, h6, h7, h8, h9, h10, h11⟩ := reserveHandles_spec nodes st hwrap
  obtain ⟨hlen, _⟩ := h11 hkeys
  have hch : ∀ rows acc, (commitItems (reserveHandles st nodes).1 rows acc).1.handles
      = (reserveHandles st nodes).1.handles :=
    fun rows acc => (commitItems_preserves rows _ acc).1
  have hcn : ∀ rows acc, (commitItems (reserveHandles st nodes).1 rows acc).1.nextClientHandle
      = (reserveHandles st nodes).1.nextClientHandle :=
    fun rows acc => (commitItems_preserves rows _ acc).2.1
  have hmono : ∀ (mst : MSubState) (e : MonError) (ns : List NodeID),
      MAddNodeIDs mst ns (.rpcErr e) = ((mReserve mst ns).1, .error e) := by
    intro mst e ns
    simp [MAddNodeIDs]
  cases rpc with
  | rpcErr e =>
      simp only [AddMonitorItems, if_neg hne]
      refine ⟨⟨e, rfl⟩, ?_, ?_, hmono⟩
      · simpa [Subscribed] using hlen
      · exact h1
  | ok resp =>
      by_cases hsvc : resp.serviceResult ≠ StatusOK
      · simp only [AddMonitorItems, if_neg hne, if_pos hsvc]
        refine ⟨⟨_, rfl⟩, ?_, ?_, hmono⟩
        · simpa [Subscribed] using hlen
        · exact h1
      · by_cases hrl : resp.results.length ≠ (reserveHandles st nodes).2.2.length
        · simp only [AddMonitorItems, if_neg hne, if_neg hsvc, if_pos hrl]
          refine ⟨⟨_, rfl⟩, ?_, ?_, hmono⟩
          · simpa [Subscribed] using hlen
          · exact h1
        · simp only [AddMonitorItems, if_neg hne, if_neg hsvc, if_neg hrl]
          push_neg at hsvc hrl
          have hbad : ∃ r ∈ resp.results, r.statusCode ≠ StatusOK := by
            rcases hfail with hf | hf | hf
            · exact absurd hsvc hf
            · rw [h5] at hrl
              exact absurd hrl hf
            · exact hf
          obtain ⟨r, hr, hrne⟩ := hbad
          have hlenz : resp.results.length ≤
              ((reserveHandles st nodes).2.1.zip (reserveHandles st nodes).2.2).length := by
            rw [List.length_zip, h4, h5, Nat.min_self, hrl, h5]
          obtain ⟨row, hrow, hrfst⟩ := exists_mem_zip_fst resp.results _ r hlenz hr
          have hrowbad :
              ∃ row ∈ resp.results.zip ((reserveHandles st nodes).2.1.zip
                (reserveHandles st nodes).2.2), row.1.statusCode ≠ StatusOK :=
            ⟨row, hrow, by rw [hrfst]; exact hrne⟩
          obtain ⟨e, he⟩ := commitItems_err _ (reserveHandles st nodes).1 [] hrowbad
          refine ⟨⟨e, he⟩, ?_, ?_, hmono⟩
          · simp only [Subscribed]
            rw [hch (resp.results.zip ((reserveHandles st nodes).2.1.zip
              (reserveHandles st nodes).2.2)) []]
            simpa [Subscribed] using hlen
          · rw [hcn (resp.results.zip ((reserveHandles st nodes).2.1.zip
              (reserveHandles st nodes).2.2)) []]
            exact h1

/-- Claim C1, witness for the amended theorem at a concrete input: one node,
counter at 100, empty indices, transport RPC error. -/
theorem claim1_amended_witness :
    (∃ e, (AddMonitorItems
      { delivered := 0, dropped := 0, handles := [], itemLookup := [],
        subID := 1, closed := false, nextClientHandle := 100 }
      [{ nodeID := "ns=2;s=A", monitoringMode := 2, monitoringParameters := none, handle := 0 }]
      (.rpcErr (.transport "boom"))).2 = .error e) ∧
    Subscribed (AddMonitorItems
      { delivered := 0, dropped := 0, handles := [], itemLookup := [],
        subID := 1, closed := false, nextClientHandle := 100 }
      [{ nodeID := "ns=2;s=A", monitoringMode := 2, monitoringParameters := none, handle := 0 }]
      (.rpcErr (.transport "boom"))).1
      = Subscribed { delivered := 0, dropped := 0, handles := [], itemLookup := [],
                     subID := 1, closed := false, nextClientHandle := 100 } + 1 ∧
    (AddMonitorItems
      { delivered := 0, dropped := 0, handles := [], itemLookup := [],
        subID := 1, closed := false, nextClientHandle := 100 }
      [{ nodeID := "ns=2;s=A", monitoringMode := 2, monitoringParameters := none, handle := 0 }]
      (.rpcErr (.transport "boom"))).1.nextClientHandle = 101 ∧
    (∀ (mst : MSubState) (e : MonError) (ns : List NodeID),
      MAddNodeIDs mst ns (.rpcErr e) = ((mReserve mst ns).1, .error e)) := by
  have h := claim1_amended
    { delivered := 0, dropped := 0, handles := [], itemLookup := [],
      subID := 1, closed := false, nextClientHandle := 100 }
    [{ nodeID := "ns=2;s=A", monitoringMode := 2, monitoringParameters := none, handle := 0 }]
    (.rpcErr (.transport "boom"))
    (by decide) (by decide) (by intro k hk; simp [keysA] at hk) (by trivial)
  exact h

/-- Claim C2, counterexample: in callback mode with the internal buffer (cap
2) observed full, a notification carrying 2 per-item change records is
discarded with `dropped` incremented by 1, not 2 — so `delivered + dropped`
(= 1) does not equal the records processed (= 2). -/
theorem claim2_counterexample :
    recordCount sampleMsg2 = 2 ∧
    (pumpStep { subID := 1, consumer := .cb, internalCap := 2, hasErrHandler := true }
        [] samplePump sampleMsg2 2).1.delivered +
      (pumpStep { subID := 1, consumer := .cb, internalCap := 2, hasErrHandler := true }
        [] samplePump sampleMsg2 2).1.dropped = 1 := by
  decide

/-- Claim C2 (amended): `delivered + dropped` never decreases over any event
sequence; in channel mode it grows by exactly the total per-item record count
of the (valid, matching, data-change) notifications processed; but in
callback mode the emulated slow-consumer condition discards the whole
notification and adds exactly 1 to `dropped` regardless of the notification's
record count (and nothing to `delivered`), so the claimed per-record
accounting fails for discarded notifications with ≠ 1 records. -/
theorem claim2_amended (cfg : PumpConfig) (handles : List (Nat × NodeID)) :
    (∀ (ps : PumpState) (events : List (PublishNotificationData × Nat)),
      ps.delivered + ps.dropped ≤
        (pumpRun cfg handles ps events).1.delivered + (pumpRun cfg handles ps events).1.dropped) ∧
    (∀ C : Nat, cfg.consumer = .chan C →
      ∀ (ps : PumpState) (events : List (PublishNotificationData × Nat)),
        (∀ e ∈ events, e.1.error = none ∧ e.1.subscriptionID = cfg.subID ∧
          isDataChange e.1.value = true) →
        (pumpRun cfg handles ps events).1.delivered + (pumpRun cfg handles ps events).1.dropped
          = ps.delivered + ps.dropped + totalRecords events) ∧
    (cfg.consumer = Consumer.cb → 0 < cfg.internalCap →
      ∀ (ps : PumpState) (msg : PublishNotificationData),
        msg.error = none → msg.subscriptionID = cfg.subID →
        (pumpStep cfg handles ps msg cfg.internalCap).1.dropped = ps.dropped + 1 ∧
        (pumpStep cfg handles ps msg cfg.internalCap).1.delivered = ps.delivered) := by
  refine ⟨fun ps events => pumpRun_sum_mono cfg handles events ps,
          fun C hc ps events hv => (pumpRun_chan_sum cfg C hc handles events ps hv).1,
          ?_⟩
  intro hcb hcap ps msg herr hid
  simp only [pumpStep, herr, if_neg (show ¬ msg.subscriptionID ≠ cfg.subID from fun h => h hid)]
  rw [if_pos (show cfg.consumer = Consumer.cb ∧ 0 < cfg.internalCap ∧ True from
    ⟨hcb, hcap, trivial⟩)]
  obtain ⟨he1, he2, -, -⟩ := sendError_effects cfg.hasErrHandler ps .slowConsumer
  constructor
  · show (sendError cfg.hasErrHandler ps .slowConsumer).dropped + 1 = ps.dropped + 1
    rw [he2]
  · show (sendError cfg.hasErrHandler ps .slowConsumer).delivered = ps.delivered
    exact he1

/-- Claim C2, witness for the amended theorem: channel of capacity 1, one
valid notification with one record — `delivered + dropped` grows by exactly
the record count. -/
theorem claim2_amended_witness :
    (pumpRun { subID := 1, consumer := .chan 1, internalCap := 0, hasErrHandler := true }
        [] samplePump [(sampleMsg1, 0)]).1.delivered +
      (pumpRun { subID := 1, consumer := .chan 1, internalCap := 0, hasErrHandler := true }
        [] samplePump [(sampleMsg1, 0)]).1.dropped
      = samplePump.delivered + samplePump.dropped + totalRecords [(sampleMsg1, 0)] := by
  have h := (claim2_amended
    { subID := 1, consumer := .chan 1, internalCap := 0, hasErrHandler := true } []).2.1 1 rfl
    samplePump [(sampleMsg1, 0)]
    (by
      intro e he
      rw [List.mem_singleton] at he
      subst he
      exact ⟨rfl, rfl, rfl⟩)
  exact h

/-- Claim C3 (code bug): on a notification whose subscription id (2) differs
from the receiving subscription's id (1), the `monitor.go` pump escalates to
process termination (`panic("wtf!?")` — the `true` flag), whereas the
`subscription.go` pump forwards a protocol-mismatch error to the handler and
continues, as the claim requires. -/
theorem claim3_bug :
    (monitorPumpStep 1 4 true []
      { delivered := 0, dropped := 0, chanBuf := [], cbOut := [], errsSent := [] }
      { subscriptionID := 2, error := none, value := .dataChange [] }).2 = true ∧
    pumpStep { subID := 1, consumer := .cb, internalCap := 0, hasErrHandler := true } []
      { delivered := 0, dropped := 0, chanBuf := [], cbOut := [], errsSent := [] }
      { subscriptionID := 2, error := none, value := .dataChange [] } 0 =
      ({ delivered := 0, dropped := 0, chanBuf := [], cbOut := [],
         errsSent := [.subIDMismatch 2 1] }, false) :=
  ⟨rfl, rfl⟩

/-- Claim C4, counterexample: removing the never-added node `ns=2;s=X` via
`RemoveNodeIDs` (subscription.go) returns `ok`, not a not-found-class error —
the node is silently skipped by the linear scan, no RPC is issued (the
outcome argument is an RPC error, yet the call succeeds), and the state is
unchanged. -/
theorem claim4_counterexample :
    RemoveNodeIDs
      { delivered := 0, dropped := 0, handles := [], itemLookup := [],
        subID := 1, closed := false, nextClientHandle := 100 }
      ["ns=2;s=X"] (.rpcErr (.transport "unused")) =
      ({ delivered := 0, dropped := 0, handles := [], itemLookup := [],
         subID := 1, closed := false, nextClientHandle := 100 }, .ok ()) :=
  rfl

/-- Claim C4 (amended): in the `monitor.go` revision, removing a node absent
from `nodeLookup` returns the `node not found` error with the state (hence
the watched-count) unchanged, as the claim states; in the `subscription.go`
revision, `RemoveNodeIDs` for a node matching no item silently succeeds with
the state unchanged — there the not-found-class error surfaces only from
`RemoveMonitorItems` when it is handed an `Item` whose id is absent. -/
theorem claim4_amended (mst : MSubState) (st : SubState) (n : NodeID)
    (rpc1 rpc2 : RpcOutcome UnmonitorResponse)
    (hm : lookupA mst.nodeLookup n = none)
    (hs : findItemByNode st.itemLookup n = none) :
    MRemoveNodeIDs mst [n] rpc1 = (mst, .error (.nodeNotFound n)) ∧
    Subscribed st = st.handles.length ∧
    RemoveNodeIDs st [n] rpc2 = (st, .ok ()) := by
  refine ⟨?_, rfl, ?_⟩
  · simp [MRemoveNodeIDs, mRemoveLoop, hm]
  · simp [RemoveNodeIDs, collectToRemove, hs, RemoveMonitorItems]

/-- Claim C4, witness for the amended theorem: both revisions with empty
indices and the node `ns=2;s=X`. -/
theorem claim4_amended_witness :
    MRemoveNodeIDs
      { delivered := 0, dropped := 0, handles := [], nodeLookup := [],
        subID := 1, closed := false, nextClientHandle := 100 }
      ["ns=2;s=X"] (.rpcErr (.transport "unused")) =
      ({ delivered := 0, dropped := 0, handles := [], nodeLookup := [],
         subID := 1, closed := false, nextClientHandle := 100 },
       .error (.nodeNotFound "ns=2;s=X")) ∧
    Subscribed { delivered := 0, dropped := 0, handles := [], itemLookup := [],
                 subID := 1, closed := false, nextClientHandle := 100 } = 0 ∧
    RemoveNodeIDs
      { delivered := 0, dropped := 0, handles := [], itemLookup := [],
        subID := 1, closed := false, nextClientHandle := 100 }
      ["ns=2;s=X"] (.rpcErr (.transport "unused")) =
      ({ delivered := 0, dropped := 0, handles := [], itemLookup := [],
         subID := 1, closed := false, nextClientHandle := 100 }, .ok ()) :=
  claim4_amended
    { delivered := 0, dropped := 0, handles := [], nodeLookup := [],
      subID := 1, closed := false, nextClientHandle := 100 }
    { delivered := 0, dropped := 0, handles := [], itemLookup := [],
      subID := 1, closed := false, nextClientHandle := 100 }
    "ns=2;s=X" (.rpcErr (.transport "unused")) (.rpcErr (.transport "unused"))
    rfl rfl

/-- Claim C5 (code bug): the first `Unsubscribe` call on an open subscription
does not panic, but the second call closes the already-closed termination
channel and panics (the `true` flag) — repeated unsubscribe calls are not
safe no-ops in the source (its own `TODO: make idempotent` acknowledges
this). -/
theorem claim5_bug :
    (Unsubscribe
      { delivered := 0, dropped := 0, handles := [], itemLookup := [],
        subID := 1, closed := false, nextClientHandle := 100 } (.ok ())).2.2 = false ∧
    (Unsubscribe
      (Unsubscribe
        { delivered := 0, dropped := 0, handles := [], itemLookup := [],
          subID := 1, closed := false, nextClientHandle := 100 } (.ok ())).1
      (.ok ())).2.2 = true :=
  ⟨rfl, rfl⟩

/-- Claim C6 (code bug): when the transport-level subscription opens
successfully but the initial add fails (here with a transport RPC error),
`newSubscription` returns the error with the cancel-invoked flag `false` —
the source never calls `sub.Cancel` on this path, so the transport-level
subscription is leaked, contrary to the claim. -/
theorem claim6_bug :
    newSubscription 100 1 none ["ns=2;s=A"] (.rpcErr (.transport "monitor rpc failed")) =
      (.error (.transport "monitor rpc failed"), false) :=
  rfl

/-- Claim C7 (confirmed): the per-record message construction yields, on a
handle miss, a message whose `Error` is handle-not-found with `NodeID` and
`DataValue` unset, and on a hit the mapped node and the record's value with
`Error` unset — exactly one of (node,value) or error is populated; and in
callback mode the produced message (miss or hit alike) is handed to the
consumer, leaving the errors sent to the handler unchanged. -/
theorem claim7_dispatch (handles : List (Nat × NodeID)) (rec : MonitoredItemNotification)
    (cfg : PumpConfig) (ps : PumpState) :
    (lookupA handles rec.clientHandle = none →
      mkChangeMessage handles rec =
        { dataValue := none, error := some (.handleNotFound rec.clientHandle), nodeID := none }) ∧
    (∀ nid, lookupA handles rec.clientHandle = some nid →
      mkChangeMessage handles rec =
        { dataValue := some rec.value, error := none, nodeID := some nid }) ∧
    ((mkChangeMessage handles rec).error = none ↔
      ((mkChangeMessage handles rec).nodeID ≠ none ∧
        (mkChangeMessage handles rec).dataValue ≠ none)) ∧
    (cfg.consumer = Consumer.cb →
      dispatchRecord cfg handles ps rec =
        ({ ps with cbOut := ps.cbOut ++ [mkChangeMessage handles rec],
                   delivered := ps.delivered + 1 }, false)) := by
  refine ⟨?_, ?_, ?_, ?_⟩
  · intro h
    simp [mkChangeMessage, h]
  · intro nid h
    simp [mkChangeMessage, h]
  · cases hl : lookupA handles rec.clientHandle <;> simp [mkChangeMessage, hl]
  · intro hc
    simp [dispatchRecord, hc]

/-- Claim C7, witness: handle 7 missing from an empty index produces the
error-only message; handle 7 present produces the node/value message; in
callback mode the miss message is delivered to the consumer with no error
sent to the handler. -/
theorem claim7_witness :
    mkChangeMessage [] { clientHandle := 7, value := { val := 1 } } =
      { dataValue := none, error := some (.handleNotFound 7), nodeID := none } ∧
    mkChangeMessage [(7, "ns=2;s=A")] { clientHandle := 7, value := { val := 1 } } =
      { dataValue := some { val := 1 }, error := none, nodeID := some "ns=2;s=A" } ∧
    dispatchRecord { subID := 1, consumer := .cb, internalCap := 0, hasErrHandler := true }
      [] samplePump { clientHandle := 7, value := { val := 1 } } =
      ({ delivered := 1, dropped := 0, chanBuf := [],
         cbOut := [{ dataValue := none, error := some (.handleNotFound 7), nodeID := none }],
         errsSent := [] }, false) := by
  refine ⟨?_, ?_, ?_⟩
  · exact (claim7_dispatch [] { clientHandle := 7, value := { val := 1 } }
      { subID := 1, consumer := .cb, internalCap := 0, hasErrHandler := true } samplePump).1 rfl
  · exact (claim7_dispatch [(7, "ns=2;s=A")] { clientHandle := 7, value := { val := 1 } }
      { subID := 1, consumer := .cb, internalCap := 0, hasErrHandler := true }
      samplePump).2.1 "ns=2;s=A" rfl
  · have h := (claim7_dispatch [] { clientHandle := 7, value := { val := 1 } }
      { subID := 1, consumer := .cb, internalCap := 0, hasErrHandler := true } samplePump).2.2.2 rfl
    rw [h]
    exact rfl

/-- Claim C8 (confirmed): in channel mode the send is non-blocking — with the
buffer starting empty and `C + 1` records in one valid notification, exactly
`C` sends succeed (each incrementing `delivered`), exactly one record is
discarded incrementing `dropped` by 1, and the installed error handler is
notified exactly once; the pump does not panic or block. -/
theorem claim8_nonblocking (cfg : PumpConfig) (C : Nat) (hc : cfg.consumer = .chan C)
    (hh : cfg.hasErrHandler = true) (handles : List (Nat × NodeID))
    (msg : PublishNotificationData) (recs : List MonitoredItemNotification)
    (hv : msg.value = .dataChange recs) (herr : msg.error = none)
    (hid : msg.subscriptionID = cfg.subID) (il : Nat) (ps : PumpState)
    (hbuf : ps.chanBuf.length = 0) (hlen : recs.length = C + 1) :
    (pumpStep cfg handles ps msg il).1.delivered = ps.delivered + C ∧
    (pumpStep cfg handles ps msg il).1.dropped = ps.dropped + 1 ∧
    (pumpStep cfg handles ps msg il).1.errsSent = ps.errsSent ++ [.slowConsumer] ∧
    (pumpStep cfg handles ps msg il).2 = false := by
  have hnotcb : ¬ (cfg.consumer = Consumer.cb ∧ 0 < cfg.internalCap ∧ il = cfg.internalCap) := by
    rw [hc]
    rintro ⟨h, -, -⟩
    exact Consumer.noConfusion h
  simp only [pumpStep, herr, if_neg (show ¬ msg.subscriptionID ≠ cfg.subID from fun h => h hid),
    if_neg hnotcb, hv]
  obtain ⟨o1, o2, o3, o4⟩ := dispatchRecords_chan_overflow cfg C hc hh handles recs ps
    (by rw [hbuf]; exact Nat.zero_le C) (by rw [hbuf, hlen]; omega)
  refine ⟨?_, o2, o3, o4⟩
  rw [o1, hbuf]
  simp

/-- Claim C8, witness: capacity 1 with 2 records ends with `delivered = 1`,
`dropped = 1` and exactly one slow-consumer notification to the handler. -/
theorem claim8_witness :
    (pumpStep { subID := 1, consumer := .chan 1, internalCap := 0, hasErrHandler := true }
        [] samplePump sampleMsg2 0).1.delivered = samplePump.delivered + 1 ∧
    (pumpStep { subID := 1, consumer := .chan 1, internalCap := 0, hasErrHandler := true }
        [] samplePump sampleMsg2 0).1.dropped = samplePump.dropped + 1 ∧
    (pumpStep { subID := 1, consumer := .chan 1, internalCap := 0, hasErrHandler := true }
        [] samplePump sampleMsg2 0).1.errsSent = samplePump.errsSent ++ [.slowConsumer] ∧
    (pumpStep { subID := 1, consumer := .chan 1, internalCap := 0, hasErrHandler := true }
        [] samplePump sampleMsg2 0).2 = false :=
  claim8_nonblocking
    { subID := 1, consumer := .chan 1, internalCap := 0, hasErrHandler := true } 1 rfl rfl
    [] sampleMsg2 [sampleRecA, sampleRecB] rfl rfl rfl 0 samplePump rfl rfl

/-- Claim C9 (confirmed): a fully successful batch add of `N` requests
increases the watched-count by exactly `N`, and the `N` allocated client
handles are the consecutive counter values `handleSeq` — pairwise distinct,
all above the seed 100, and distinct from every handle the registry allocated
before (`allHandles` is any set of previously allocated handles, all bounded
by the current counter — removal never lowers the counter, so this covers
handles of removed items).  Hypotheses: the counter does not wrap (the spec's
accepted non-goal), it is at or above the seed, and the allocator invariant
that existing keys are bounded by the counter. -/
theorem claim9_add_distinct_handles (st : SubState) (nodes : List Request)
    (resp : MonitorResponse) (allHandles : List Nat)
    (hwrap : st.nextClientHandle + nodes.length < u32)
    (hseed : 100 ≤ st.nextClientHandle)
    (hkeys : ∀ k ∈ keysA st.handles, k ≤ st.nextClientHandle)
    (hall : ∀ h ∈ allHandles, h ≤ st.nextClientHandle)
    (hsvc : resp.serviceResult = StatusOK)
    (hrlen : resp.results.length = nodes.length)
    (hok : ∀ r ∈ resp.results, r.statusCode = StatusOK) :
    ∃ items : List Item,
      (AddMonitorItems st nodes (.ok resp)).2 = .ok items ∧
      items.map Item.handle = handleSeq st.nextClientHandle nodes.length ∧
      (items.map Item.handle).Nodup ∧
      (∀ h ∈ items.map Item.handle, h ∉ allHandles ∧ 100 < h) ∧
      Subscribed (AddMonitorItems st nodes (.ok resp)).1 = Subscribed st + nodes.length ∧
      (AddMonitorItems st nodes (.ok resp)).1.nextClientHandle
        = st.nextClientHandle + nodes.length := by
  by_cases hne : nodes = []
  · subst hne
    refine ⟨[], ?_, rfl, List.nodup_nil, ?_, ?_, ?_⟩
    · simp [AddMonitorItems]
    · intro h hh
      simp at hh
    · simp [AddMonitorItems]
    · simp [AddMonitorItems]
  · obtain ⟨h1, h2, h3, h4, h5, h6, h7, h8, h9, h10, h11⟩ := reserveHandles_spec nodes st hwrap
    obtain ⟨hlen11, _⟩ := h11 hkeys
    have hrl : ¬ resp.results.length ≠ (reserveHandles st nodes).2.2.length := by
      rw [hrlen, h5]
      exact fun h => h rfl
    simp only [AddMonitorItems, if_neg hne,
      if_neg (show ¬ resp.serviceResult ≠ StatusOK from fun h => h hsvc), if_neg hrl]
    have hrowok : ∀ row ∈ resp.results.zip ((reserveHandles st nodes).2.1.zip
        (reserveHandles st nodes).2.2), row.1.statusCode = StatusOK := by
      intro row hrow
      obtain ⟨a, b⟩ := row
      exact hok a (List.of_mem_zip hrow).1
    have hcommit := commitItems_ok
      (resp.results.zip ((reserveHandles st nodes).2.1.zip (reserveHandles st nodes).2.2))
      (reserveHandles st nodes).1 [] hrowok
    have hmid : (resp.results.zip ((reserveHandles st nodes).2.1.zip
        (reserveHandles st nodes).2.2)).map (fun x => x.2.1) = (reserveHandles st nodes).2.1 :=
      zip_map_middle (reserveHandles st nodes).2.1 resp.results (reserveHandles st nodes).2.2
        (by rw [hrlen, h4]) (by rw [h4, h5])
    refine ⟨(resp.results.zip ((reserveHandles st nodes).2.1.zip
      (reserveHandles st nodes).2.2)).map (fun row =>
        ({ id := row.1.monitoredItemID, handle := row.2.1.handle,
           nodeID := row.2.2.nodeID } : Item)), ?_, ?_, ?_, ?_, ?_, ?_⟩
    · rw [hcommit]
      rfl
    · rw [List.map_map]
      calc (resp.results.zip ((reserveHandles st nodes).2.1.zip
            (reserveHandles st nodes).2.2)).map (fun x => x.2.1.handle)
          = ((resp.results.zip ((reserveHandles st nodes).2.1.zip
              (reserveHandles st nodes).2.2)).map (fun x => x.2.1)).map Request.handle := by
            rw [List.map_map]
            rfl
        _ = (reserveHandles st nodes).2.1.map Request.handle := by rw [hmid]
        _ = handleSeq st.nextClientHandle nodes.length := h2
    · have hthis : (resp.results.zip ((reserveHandles st nodes).2.1.zip
          (reserveHandles st nodes).2.2)).map (fun x => x.2.1.handle)
          = handleSeq st.nextClientHandle nodes.length := by
        calc (resp.results.zip ((reserveHandles st nodes).2.1.zip
              (reserveHandles st nodes).2.2)).map (fun x => x.2.1.handle)
            = ((resp.results.zip ((reserveHandles st nodes).2.1.zip
                (reserveHandles st nodes).2.2)).map (fun x => x.2.1)).map Request.handle := by
              rw [List.map_map]
              rfl
          _ = (reserveHandles st nodes).2.1.map Request.handle := by rw [hmid]
          _ = handleSeq st.nextClientHandle nodes.length := h2
      rw [List.map_map]
      show ((resp.results.zip ((reserveHandles st nodes).2.1.zip
        (reserveHandles st nodes).2.2)).map (fun x => x.2.1.handle)).Nodup
      rw [hthis]
      exact handleSeq_nodup nodes.length st.nextClientHandle
    · have heq : (resp.results.zip ((reserveHandles st nodes).2.1.zip
          (reserveHandles st nodes).2.2)).map (fun x => x.2.1.handle)
          = handleSeq st.nextClientHandle nodes.length := by
        calc (resp.results.zip ((reserveHandles st nodes).2.1.zip
              (reserveHandles st nodes).2.2)).map (fun x => x.2.1.handle)
            = ((resp.results.zip ((reserveHandles st nodes).2.1.zip
                (reserveHandles st nodes).2.2)).map (fun x => x.2.1)).map Request.handle := by
              rw [List.map_map]
              rfl
          _ = (reserveHandles st nodes).2.1.map Request.handle := by rw [hmid]
          _ = handleSeq st.nextClientHandle nodes.length := h2
      rw [List.map_map]
      show ∀ h ∈ (resp.results.zip ((reserveHandles st nodes).2.1.zip
        (reserveHandles st nodes).2.2)).map (fun x => x.2.1.handle), h ∉ allHandles ∧ 100 < h
      rw [heq]
      intro h hh
      obtain ⟨hgt, -⟩ := (mem_handleSeq nodes.length st.nextClientHandle h).mp hh
      constructor
      · intro hmem
        exact absurd (hall h hmem) (by omega)
      · omega
    · simp only [Subscribed]
      rw [(commitItems_preserves _ _ _).1]
      exact hlen11
    · rw [(commitItems_preserves _ _ _).2.1]
      exact h1

/-- Claim C9, witness: adding two nodes to a fresh subscription (counter 100,
`allHandles = [100]`) with an all-OK response yields handles 101 and 102:
distinct, unused before, and the watched-count goes from 0 to 2. -/
theorem claim9_witness :
    ∃ items : List Item,
      (AddMonitorItems sampleSub [sampleReqA, sampleReqB] (.ok sampleRespOK)).2 = .ok items ∧
      items.map Item.handle = handleSeq sampleSub.nextClientHandle 2 ∧
      (items.map Item.handle).Nodup ∧
      (∀ h ∈ items.map Item.handle, h ∉ [100] ∧ 100 < h) ∧
      Subscribed (AddMonitorItems sampleSub [sampleReqA, sampleReqB] (.ok sampleRespOK)).1
        = Subscribed sampleSub + 2 ∧
      (AddMonitorItems sampleSub [sampleReqA, sampleReqB] (.ok sampleRespOK)).1.nextClientHandle
        = sampleSub.nextClientHandle + 2 :=
  claim9_add_distinct_handles sampleSub [sampleReqA, sampleReqB] sampleRespOK [100]
    (by decide) (by decide) (by decide) (by decide) rfl (by decide) (by decide)

/-- Claim C10 (confirmed): each batch mutation operation called with an empty
item list returns success immediately (a nil item list for the add), with the
state untouched; the result is independent of the RPC-outcome argument, which
shows no transport RPC is consulted. -/
theorem claim10_empty_batch (st : SubState) (monitoringMode : Nat)
    (rpc1 : RpcOutcome MonitorResponse) (rpc2 : RpcOutcome UnmonitorResponse)
    (rpc3 : RpcOutcome ModifyResponse) (rpc4 : RpcOutcome SetModeResponse) :
    AddMonitorItems st [] rpc1 = (st, .ok []) ∧
    RemoveMonitorItems st [] rpc2 = (st, .ok ()) ∧
    ModifyMonitorItems st [] rpc3 = (st, .ok ()) ∧
    SetMonitoringMode st monitoringMode [] rpc4 = (st, .ok ()) := by
  refine ⟨?_, ?_, ?_, ?_⟩ <;>
    simp [AddMonitorItems, RemoveMonitorItems, ModifyMonitorItems, SetMonitoringMode]

end OpcuaMonitor
